import Mathlib

/-!
Verification development for the GIS format-conversion MCP server
(`gis-dataconversion-mcp`). The definitions below are a shallow embedding of
the TypeScript source (`src/index.ts`, class `GisFormatServer`):

* JavaScript numbers are modelled as exact rationals (`ℚ`); the behaviors
  verified here only exercise arithmetic that is exact in IEEE doubles.
* JSON values are modelled by `JValue`; JavaScript `undefined` is modelled
  by `Option` (`none` = absent/undefined).
* Code paths that throw are modelled with `Except`; the engine-specific
  message text of thrown `TypeError`s is abstracted to `Unit`.
* External library delegates (`wellknown`, `csv2geojson`,
  `topojson-client`, `@tmcw/togeojson`, `JSON.stringify`) are parameters of
  the embedded operations: the source treats them as opaque collaborators.
-/

namespace GisMcp

/-- JSON values (the loosely-typed data the server passes around).
JavaScript `undefined` is not a `JValue`; absence is `Option.none` at use
sites, mirroring the source's property lookups. -/
inductive JValue where
  | null
  | bool (b : Bool)
  | num (q : ℚ)
  | str (s : String)
  | arr (elems : List JValue)
  | obj (fields : List (String × JValue))

/-- JavaScript `String()` applied to an integer (`Int.repr` matches the
decimal rendering of integral doubles). -/
def jsIntRepr (n : ℤ) : String := toString n

/-- JavaScript `String()` applied to a number. Integral values render as
their decimal digits, exactly as `String()` does for integral doubles (the
only case the verified behaviors evaluate). Non-integral rationals have no
exact JavaScript counterpart under the exact-rational idealization of
doubles; they are rendered here as `num/den`. -/
def jsNumRepr (q : ℚ) : String :=
  if q.den = 1 then jsIntRepr q.num else jsIntRepr q.num ++ "/" ++ toString q.den

mutual

/-- JavaScript `String()` of a value: `String(null) = "null"`, booleans and
numbers print themselves, strings pass through, arrays render via
`Array.prototype.join(",")` (with `null` elements as empty), plain objects
render as `"[object Object]"`. -/
def jsToString : JValue → String
  | .null => "null"
  | .bool true => "true"
  | .bool false => "false"
  | .num q => jsNumRepr q
  | .str s => s
  | .arr xs => String.intercalate "," (jsArrCells xs)
  | .obj _ => "[object Object]"

/-- The element strings of `Array.prototype.join`: `null` (and `undefined`)
become the empty string, every other element is `String()`-converted. -/
def jsArrCells : List JValue → List String
  | [] => []
  | .null :: rest => "" :: jsArrCells rest
  | v :: rest => jsToString v :: jsArrCells rest

end

/-- JavaScript truthiness of a value (`!v` is the negation of this). -/
def jsTruthy : JValue → Bool
  | .null => false
  | .bool b => b
  | .num q => decide (q ≠ 0)
  | .str s => decide (s ≠ "")
  | .arr _ => true
  | .obj _ => true

/-- Truthiness of a possibly-absent value: JavaScript `undefined` is falsy. -/
def truthyO : Option JValue → Bool
  | none => false
  | some v => jsTruthy v

/-- A GeoJSON geometry as the flattening code discriminates it: the source
switches on `feature.geometry.type` and reads `coordinates` (resp.
`geometries`) with the shape each branch expects. `other` stands for any
geometry object whose `type` matches none of the seven branches. -/
inductive Geometry where
  | point (coordinates : List ℚ)
  | lineString (coordinates : List (List ℚ))
  | polygon (coordinates : List (List (List ℚ)))
  | multiPoint (coordinates : List (List ℚ))
  | multiLineString (coordinates : List (List (List ℚ)))
  | multiPolygon (coordinates : List (List (List (List ℚ))))
  | collection (geometries : List Geometry)
  | other

/-- A GeoJSON feature as consumed by `geojsonToCSV`: `geometry = none`
models a `null`/absent geometry (on which `feature.geometry.type` throws),
`properties = none` models `null`/absent properties. -/
structure Feature where
  geometry : Option Geometry
  properties : Option (List (String × JValue))

/-- A coordinate cell value before `String()` conversion: the `''` the
source initializes `lat`/`lon` with, a number, `undefined` (from
destructuring a too-short array), or `NaN` (from centroid arithmetic on
malformed input). -/
inductive Cell where
  | emptyS
  | num (q : ℚ)
  | undefined
  | nan
deriving DecidableEq

/-- `String()` of a cell value, as applied by `String(lat)` / `String(lon)`. -/
def Cell.render : Cell → String
  | .emptyS => ""
  | .num q => jsNumRepr q
  | .undefined => "undefined"
  | .nan => "NaN"

/-- Result of array destructuring `[lon, lat] = coords`: a missing index
yields `undefined`. -/
def Cell.ofIdx : Option ℚ → Cell
  | some q => .num q
  | none => .undefined

/-- Result of the centroid arithmetic: `NaN` when the sum or the division
degenerates. -/
def Cell.ofNum : Option ℚ → Cell
  | some q => .num q
  | none => .nan

/-- JavaScript addition where one operand may be `undefined` or `NaN`
(modelled as `none`): any such operand poisons the sum to `NaN`. -/
def jsAdd : Option ℚ → Option ℚ → Option ℚ
  | some a, some b => some (a + b)
  | _, _ => none

/-- `GisFormatServer.getCentroid`: sums `points[i][0]` and `points[i][1]`
over all `i` and divides each by `points.length`. A missing coordinate
(`undefined`) makes the sum `NaN`; an empty ring divides `0/0 = NaN`.
Returns `(sumX / n, sumY / n)` with `none` standing for `NaN`. -/
def getCentroid (points : List (List ℚ)) : Option ℚ × Option ℚ :=
  let n := points.length
  let sumX := points.foldl (fun acc p => jsAdd acc (p.get? 0)) (some 0)
  let sumY := points.foldl (fun acc p => jsAdd acc (p.get? 1)) (some 0)
  (if n = 0 then none else sumX.map (· / (n : ℚ)),
   if n = 0 then none else sumY.map (· / (n : ℚ)))

/-- The geometry dispatch of `geojsonToCSV` deriving the representative
`(lon, lat)` pair of one feature. `Except.error` marks the places where the
JavaScript throws a `TypeError`: accessing `.type` on an absent geometry,
or indexing/destructuring `undefined` on empty coordinate arrays. -/
def featureLonLat : Option Geometry → Except Unit (Cell × Cell)
  | none => .error ()
  | some (.point cs) => .ok (Cell.ofIdx (cs.get? 0), Cell.ofIdx (cs.get? 1))
  | some (.lineString cs) =>
      match cs.head? with
      | none => .error ()
      | some p => .ok (Cell.ofIdx (p.get? 0), Cell.ofIdx (p.get? 1))
  | some (.multiPoint cs) =>
      match cs.head? with
      | none => .error ()
      | some p => .ok (Cell.ofIdx (p.get? 0), Cell.ofIdx (p.get? 1))
  | some (.polygon rings) =>
      match rings.head? with
      | none => .error ()
      | some ring => .ok (Cell.ofNum (getCentroid ring).1, Cell.ofNum (getCentroid ring).2)
  | some (.multiLineString lines) =>
      match lines.head? with
      | none => .error ()
      | some line =>
        match line.head? with
        | none => .error ()
        | some p => .ok (Cell.ofIdx (p.get? 0), Cell.ofIdx (p.get? 1))
  | some (.multiPolygon polys) =>
      match polys.head? with
      | none => .error ()
      | some rings =>
        match rings.head? with
        | none => .error ()
        | some ring => .ok (Cell.ofNum (getCentroid ring).1, Cell.ofNum (getCentroid ring).2)
  | some (.collection gs) =>
      match gs.head? with
      | none => .ok (.emptyS, .emptyS)
      | some (.point cs) => .ok (Cell.ofIdx (cs.get? 0), Cell.ofIdx (cs.get? 1))
      | some (.polygon rings) =>
        match rings.head? with
        | none => .error ()
        | some ring => .ok (Cell.ofNum (getCentroid ring).1, Cell.ofNum (getCentroid ring).2)
      | some _ => .ok (.emptyS, .emptyS)
  | some .other => .ok (.emptyS, .emptyS)

/-- The property keys of one feature (`Object.keys(feature.properties)`),
empty when properties are absent (`if (feature.properties)`). -/
def propKeys (f : Feature) : List String :=
  match f.properties with
  | none => []
  | some ps => ps.map Prod.fst

/-- `Set.prototype.add`: append the key unless already present (insertion
order, first occurrence wins). -/
def addKey (acc : List String) (k : String) : List String :=
  if k ∈ acc then acc else acc ++ [k]

/-- The property-key collection pass of `geojsonToCSV`: one scan over all
features accumulating the union of property keys in first-seen order. -/
def collectKeys (fs : List Feature) : List String :=
  fs.foldl (fun acc f => (propKeys f).foldl addKey acc) []

/-- JavaScript property lookup on a possibly-absent properties object:
`undefined` (modelled as `none`) when the object or the key is absent. -/
def propLookup (props : Option (List (String × JValue))) (k : String) : Option JValue :=
  match props with
  | none => none
  | some ps => List.lookup k ps

/-- The template `` "${value.replace(/"/g, '""')}" `` of the source: wrap
in double quotes, doubling each internal double quote. -/
def quoteJs (s : String) : String :=
  "\"" ++ String.mk (s.data.foldr (fun c acc => if c = '"' then '"' :: '"' :: acc else c :: acc) []) ++ "\""

/-- One property cell of a data row. The source computes
`value = properties && properties[prop] !== undefined ? properties[prop] : ''`
and pushes `typeof value === 'string' ? quoted : value`; `Array.join` then
renders a pushed `null` as the empty string and other non-strings via
`String()`. Note that a missing property yields the *string* `''`, which is
quoted to the two-character cell `""`. -/
def propCell (props : Option (List (String × JValue))) (k : String) : String :=
  match propLookup props k with
  | none => quoteJs ""
  | some (.str s) => quoteJs s
  | some .null => ""
  | some v => jsToString v

/-- One data row of `geojsonToCSV`: `[String(lat), String(lon)]` followed by
one property cell per collected key. Propagates the geometry dispatch's
exceptions. -/
def rowCells (keys : List String) (f : Feature) : Except Unit (List String) :=
  match featureLonLat f.geometry with
  | .error e => .error e
  | .ok (lon, lat) => .ok (Cell.render lat :: Cell.render lon :: keys.map (propCell f.properties))

/-- The `features.forEach` row loop: builds each row in order, aborting with
the first thrown exception (which the surrounding `try` then catches). -/
def mapRows (keys : List String) : List Feature → Except Unit (List (List String))
  | [] => .ok []
  | f :: fs =>
    match rowCells keys f with
    | .error e => .error e
    | .ok r =>
      match mapRows keys fs with
      | .error e => .error e
      | .ok rs => .ok (r :: rs)

/-- The full row matrix of `geojsonToCSV`: the header
`['latitude', 'longitude', ...properties]` followed by one data row per
feature. -/
def geojsonRows (fs : List Feature) : Except Unit (List (List String)) :=
  match mapRows (collectKeys fs) fs with
  | .error e => .error e
  | .ok dataRows => .ok (("latitude" :: "longitude" :: collectKeys fs) :: dataRows)

/-- The CSV text of `geojsonToCSV`: rows joined with `','`, lines joined
with `'\n'` (`csvRows.join('\n')`). -/
def geojsonToCSVtext (fs : List Feature) : Except Unit String :=
  match geojsonRows fs with
  | .error e => .error e
  | .ok rows => .ok (String.intercalate "\n" (rows.map (String.intercalate ",")))

/-- The MCP SDK error codes the server uses (`ErrorCode` of
`@modelcontextprotocol/sdk/types.js`). -/
inductive ErrorCode where
  | InvalidParams
  | MethodNotFound
  | InternalError
deriving DecidableEq

/-- The JSON-RPC number of each code, as it appears in `McpError.message`. -/
def ErrorCode.jsonRpcNum : ErrorCode → String
  | .MethodNotFound => "-32601"
  | .InvalidParams => "-32602"
  | .InternalError => "-32603"

/-- An `McpError(code, msg)` as constructed by the server; `msg` is the
constructor argument (without the `MCP error N:` prefix). -/
structure McpErr where
  code : ErrorCode
  msg : String
deriving DecidableEq

/-- The `Error.message` of an `McpError`: its constructor calls
`super(MCP error code: message)`, so the inherited `message` carries the
numeric prefix. -/
def McpErr.errMessage (e : McpErr) : String :=
  "MCP error " ++ e.code.jsonRpcNum ++ ": " ++ e.msg

/-- The tool response envelope, reduced to its single text payload
(`{ content: [{ type: 'text', text }] }` of `formatToolResponse`). -/
structure ToolResponse where
  text : String
deriving DecidableEq

/-- `GisFormatServer.formatToolResponse`. -/
def formatToolResponse (t : String) : ToolResponse := ⟨t⟩

/-- The loosely-typed argument bag of one tool call
(`request.params.arguments`). -/
abbrev ArgBag := List (String × JValue)

/-- Destructuring one field out of the argument bag (`const { x } = args`):
`none` models `undefined`. -/
def getArg (args : ArgBag) (k : String) : Option JValue :=
  List.lookup k args

/-- `GisFormatServer.wktToGeoJSON`. `parse` stands for `wellknown.parse`
(which may throw or return a value the `!geojson` check rejects);
`stringifyFn` stands for `JSON.stringify(geojson, null, 2)`. -/
def wktToGeoJSON (parse : JValue → Except String JValue) (stringifyFn : JValue → String)
    (args : ArgBag) : Except McpErr ToolResponse :=
  let wkt := getArg args "wkt"
  if truthyO wkt then
    match parse (wkt.getD .null) with
    | .error m => .error ⟨.InternalError, "WKT to GeoJSON conversion failed: " ++ m⟩
    | .ok g =>
      if jsTruthy g then .ok (formatToolResponse (stringifyFn g))
      else .error ⟨.InternalError, "WKT to GeoJSON conversion failed: Failed to parse WKT string"⟩
  else .error ⟨.InvalidParams, "Missing required parameter: wkt"⟩

/-- `GisFormatServer.csvToGeoJSON`. `delegate` stands for the composition of
`csv2geojson.csv2geojson(csv, { latfield, lonfield, delimiter }, cb)` and
`JSON.stringify(data, null, 2)` on its success value: it receives the four
argument values and yields either the delegate's error message or the
serialized FeatureCollection. -/
def csvToGeoJSON (delegate : JValue → JValue → JValue → JValue → Except String String)
    (args : ArgBag) : Except McpErr ToolResponse :=
  let csv := getArg args "csv"
  let latfield := getArg args "latfield"
  let lonfield := getArg args "lonfield"
  let delimiter := (getArg args "delimiter").getD (.str ",")
  if truthyO csv && truthyO latfield && truthyO lonfield then
    match delegate (csv.getD .null) (latfield.getD .null) (lonfield.getD .null) delimiter with
    | .error m => .error ⟨.InternalError, "CSV to GeoJSON conversion failed: " ++ m⟩
    | .ok out => .ok (formatToolResponse out)
  else .error ⟨.InvalidParams, "Missing required parameters: csv, latfield, lonfield"⟩

/-- `GisFormatServer.kmlToGeoJSON`. `delegate` stands for the composition of
`new DOMParser().parseFromString(kml, 'text/xml')`, `kmlToGeoJSON` of
`@tmcw/togeojson` and `JSON.stringify(geojson, null, 2)`. -/
def kmlToGeoJSON (delegate : JValue → Except String String)
    (args : ArgBag) : Except McpErr ToolResponse :=
  let kml := getArg args "kml"
  if truthyO kml then
    match delegate (kml.getD .null) with
    | .error m => .error ⟨.InternalError, "KML to GeoJSON conversion failed: " ++ m⟩
    | .ok out => .ok (formatToolResponse out)
  else .error ⟨.InvalidParams, "Missing required parameter: kml"⟩

/-- The GeoJSON argument of `geojsonToCSV` as the code inspects it:
`features = none` models an absent/falsy `features` field (the code only
checks `!geojson.features`; an empty array is truthy and passes). -/
structure GeoJSONDoc where
  features : Option (List Feature)

/-- `GisFormatServer.geojsonToCSV`: rejects an absent/falsy `geojson` or
`geojson.features` with `InvalidParams`, otherwise runs the flattening
engine; an exception thrown inside the `try` becomes `InternalError` (the
engine-specific text appended to the message is abstracted away). The
`includeAllProperties` argument is destructured but never consulted. -/
def geojsonToCSV (geojson : Option GeoJSONDoc) (includeAllProperties : Option JValue) :
    Except McpErr ToolResponse :=
  match geojson with
  | none => .error ⟨.InvalidParams, "Invalid GeoJSON: missing features array"⟩
  | some doc =>
    match doc.features with
    | none => .error ⟨.InvalidParams, "Invalid GeoJSON: missing features array"⟩
    | some fs =>
      match geojsonToCSVtext fs with
      | .error _ => .error ⟨.InternalError, "GeoJSON to CSV conversion failed"⟩
      | .ok t => .ok (formatToolResponse t)

/-- The TopoJSON argument of `topojsonToGeoJSON`, reduced to the one field
the routing logic reads: `objects = none` models an absent/falsy `objects`
field, `some objs` a (possibly empty) object whose keys are in insertion
order. -/
structure Topology where
  objects : Option (List (String × JValue))

/-- JavaScript truthiness of the `objectName` string variable (`undefined`
and `''` are falsy). -/
def jsStrTruthy : Option String → Bool
  | none => false
  | some s => decide (s ≠ "")

/-- `GisFormatServer.topojsonToGeoJSON`. `delegate` stands for the
composition of `topojsonClient.feature(topojson, obj)` and
`JSON.stringify(geojson, null, 2)`. Routing: an absent/falsy `objectName`
falls back to the first key of `topojson.objects`; if the resolved name is
still falsy, `objects` is absent, or the lookup misses (or hits a falsy
value), the `try` block throws `No valid object found in TopoJSON`, which
the `catch` wraps as `InternalError`. -/
def topojsonToGeoJSON (delegate : Topology → JValue → String)
    (topojson : Option Topology) (objectName : Option String) : Except McpErr ToolResponse :=
  match topojson with
  | none => .error ⟨.InvalidParams, "Missing required parameter: topojson"⟩
  | some topo =>
    let objName : Option String :=
      if jsStrTruthy objectName then objectName
      else
        match topo.objects with
        | some objs => objs.head?.map Prod.fst
        | none => objectName
    let noObj : Except McpErr ToolResponse :=
      .error ⟨.InternalError, "TopoJSON to GeoJSON conversion failed: No valid object found in TopoJSON"⟩
    if jsStrTruthy objName then
      match topo.objects with
      | none => noObj
      | some objs =>
        match List.lookup (objName.getD "") objs with
        | none => noObj
        | some v => if jsTruthy v then .ok (formatToolResponse (delegate topo v)) else noObj
    else noObj

/-- The nine per-operation handlers the dispatcher routes to, each taking
the raw argument bag. The dispatcher claims quantify over this record, which
is how "no conversion operation is invoked" is expressed. -/
structure ToolImpls where
  wktToGeoJSON : ArgBag → Except McpErr ToolResponse
  geoJSONToWKT : ArgBag → Except McpErr ToolResponse
  csvToGeoJSON : ArgBag → Except McpErr ToolResponse
  geojsonToCSV : ArgBag → Except McpErr ToolResponse
  geojsonToTopoJSON : ArgBag → Except McpErr ToolResponse
  topojsonToGeoJSON : ArgBag → Except McpErr ToolResponse
  kmlToGeoJSON : ArgBag → Except McpErr ToolResponse
  geojsonToKML : ArgBag → Except McpErr ToolResponse
  coordinatesToLocation : ArgBag → Except McpErr ToolResponse

/-- The nine registered tool names of the `switch` statement. -/
def registeredTools : List String :=
  ["wkt_to_geojson", "geojson_to_wkt", "csv_to_geojson", "geojson_to_csv",
   "geojson_to_topojson", "topojson_to_geojson", "kml_to_geojson", "geojson_to_kml",
   "coordinates_to_location"]

/-- The `switch (request.params.name)` of the `CallToolRequestSchema`
handler: route to the matching operation or throw
`McpError(MethodNotFound, Unknown tool: name)`. -/
def dispatch (impl : ToolImpls) (name : String) (args : ArgBag) : Except McpErr ToolResponse :=
  if name = "wkt_to_geojson" then impl.wktToGeoJSON args
  else if name = "geojson_to_wkt" then impl.geoJSONToWKT args
  else if name = "csv_to_geojson" then impl.csvToGeoJSON args
  else if name = "geojson_to_csv" then impl.geojsonToCSV args
  else if name = "geojson_to_topojson" then impl.geojsonToTopoJSON args
  else if name = "topojson_to_geojson" then impl.topojsonToGeoJSON args
  else if name = "kml_to_geojson" then impl.kmlToGeoJSON args
  else if name = "geojson_to_kml" then impl.geojsonToKML args
  else if name = "coordinates_to_location" then impl.coordinatesToLocation args
  else .error ⟨.MethodNotFound, "Unknown tool: " ++ name⟩

/-- The full `CallToolRequestSchema` handler: the `try` body is `dispatch`;
the `catch` re-wraps every thrown `Error` — and `McpError` extends `Error` —
as `McpError(InternalError, Failed to process request: error.message)`.
Consequently no `MethodNotFound` or `InvalidParams` code ever reaches the
caller. -/
def handleCallTool (impl : ToolImpls) (name : String) (args : ArgBag) :
    Except McpErr ToolResponse :=
  match dispatch impl name args with
  | .ok r => .ok r
  | .error e => .error ⟨.InternalError, "Failed to process request: " ++ e.errMessage⟩

/-- A stub operation used to instantiate `ToolImpls` in witnesses. -/
def stubTool : ArgBag → Except McpErr ToolResponse :=
  fun _ => .ok (formatToolResponse "stub")

/-- A `ToolImpls` record of stubs, for witnesses. -/
def stubImpls : ToolImpls :=
  ⟨stubTool, stubTool, stubTool, stubTool, stubTool, stubTool, stubTool, stubTool, stubTool⟩

/-- A stub CSV delegate, for witnesses. -/
def csvStubDelegate : JValue → JValue → JValue → JValue → Except String String :=
  fun _ _ _ _ => .ok "stub"

/-- A `ToolImpls` record whose `csv_to_geojson` slot is the real embedded
operation wired to the stub delegate, for witnesses. -/
def csvWiredImpls : ToolImpls :=
  ⟨stubTool, stubTool, csvToGeoJSON csvStubDelegate, stubTool, stubTool, stubTool, stubTool,
   stubTool, stubTool⟩

/-- If the `try` body (the switch) throws `e`, the handler's `catch` returns
`InternalError` wrapping `e`'s `Error.message`. -/
theorem handle_of_dispatch_error (impl : ToolImpls) (name : String) (args : ArgBag) (e : McpErr)
    (h : dispatch impl name args = .error e) :
    handleCallTool impl name args =
      .error ⟨.InternalError, "Failed to process request: " ++ e.errMessage⟩ := by
  unfold handleCallTool
  rw [h]

/-- C1: for every request whose operation name is not one of the nine
registered names, the switch throws `MethodNotFound` without reading the
argument bag and without invoking any operation (the result is independent
of the operation record and the arguments; the embedding is stateless) —
but the surrounding `catch` re-wraps that `McpError` (an `Error` instance)
so the caller observes `InternalError`, not `MethodNotFound`. -/
theorem unknown_tool_wrapped_internal_error (impl impl' : ToolImpls) (name : String)
    (args args' : ArgBag) (h : name ∉ registeredTools) :
    dispatch impl name args = .error ⟨.MethodNotFound, "Unknown tool: " ++ name⟩ ∧
    handleCallTool impl name args =
      .error ⟨.InternalError, "Failed to process request: MCP error -32601: Unknown tool: " ++ name⟩ ∧
    handleCallTool impl name args = handleCallTool impl' name args' := by
  simp only [registeredTools, List.mem_cons, List.not_mem_nil, or_false, not_or] at h
  obtain ⟨h1, h2, h3, h4, h5, h6, h7, h8, h9⟩ := h
  have hd : ∀ (im : ToolImpls) (ar : ArgBag),
      dispatch im name ar = .error ⟨.MethodNotFound, "Unknown tool: " ++ name⟩ := by
    intro im ar
    simp only [dispatch, if_neg h1, if_neg h2, if_neg h3, if_neg h4, if_neg h5, if_neg h6,
      if_neg h7, if_neg h8, if_neg h9]
  refine ⟨hd impl args, ?_, ?_⟩
  · rw [handle_of_dispatch_error impl name args _ (hd impl args)]
    simp only [McpErr.errMessage, ErrorCode.jsonRpcNum, ← String.append_assoc]
    rfl
  · rw [handle_of_dispatch_error impl name args _ (hd impl args),
      handle_of_dispatch_error impl' name args' _ (hd impl' args')]

/-- Witness for C1 at the concrete unregistered name `shapefile_to_geojson`. -/
theorem unknown_tool_wrapped_internal_error_witness :
    handleCallTool stubImpls "shapefile_to_geojson" [] =
      .error ⟨.InternalError,
        "Failed to process request: MCP error -32601: Unknown tool: shapefile_to_geojson"⟩ :=
  (unknown_tool_wrapped_internal_error stubImpls stubImpls "shapefile_to_geojson" [] []
    (by decide)).2.1

/-- C2: a `csv_to_geojson` call whose bag lacks `latfield` is rejected by
the operation's own check with `InvalidParams` naming the missing fields,
and the `csv2geojson` delegate is never invoked (the result is independent
of the delegate) — but the dispatcher's `catch` re-wraps the `McpError`, so
the caller observes `InternalError` (with the missing-field text embedded
in the message), not `InvalidParams`. -/
theorem csv_missing_latfield_wrapped_internal_error
    (d d' : JValue → JValue → JValue → JValue → Except String String)
    (impl : ToolImpls) (args : ArgBag)
    (h : getArg args "latfield" = none)
    (himpl : impl.csvToGeoJSON = csvToGeoJSON d) :
    csvToGeoJSON d args =
      .error ⟨.InvalidParams, "Missing required parameters: csv, latfield, lonfield"⟩ ∧
    csvToGeoJSON d args = csvToGeoJSON d' args ∧
    handleCallTool impl "csv_to_geojson" args =
      .error ⟨.InternalError,
        "Failed to process request: MCP error -32602: Missing required parameters: csv, latfield, lonfield"⟩ := by
  have hop : ∀ dd : JValue → JValue → JValue → JValue → Except String String,
      csvToGeoJSON dd args =
        .error ⟨.InvalidParams, "Missing required parameters: csv, latfield, lonfield"⟩ := by
    intro dd
    simp [csvToGeoJSON, h, truthyO]
  have hdisp : dispatch impl "csv_to_geojson" args = impl.csvToGeoJSON args := rfl
  have herr : dispatch impl "csv_to_geojson" args =
      .error ⟨.InvalidParams, "Missing required parameters: csv, latfield, lonfield"⟩ := by
    rw [hdisp, himpl, hop d]
  refine ⟨hop d, (hop d).trans (hop d').symm, ?_⟩
  rw [handle_of_dispatch_error impl "csv_to_geojson" args _ herr]
  simp only [McpErr.errMessage, ErrorCode.jsonRpcNum, ← String.append_assoc]
  rfl

/-- Witness for C2 at a concrete bag carrying `csv` and `lonfield` but no
`latfield`. -/
theorem csv_missing_latfield_wrapped_internal_error_witness :
    csvToGeoJSON csvStubDelegate [("csv", .str "a,b\n1,2"), ("lonfield", .str "b")] =
      .error ⟨.InvalidParams, "Missing required parameters: csv, latfield, lonfield"⟩ ∧
    handleCallTool csvWiredImpls "csv_to_geojson" [("csv", .str "a,b\n1,2"), ("lonfield", .str "b")] =
      .error ⟨.InternalError,
        "Failed to process request: MCP error -32602: Missing required parameters: csv, latfield, lonfield"⟩ := by
  have h := csv_missing_latfield_wrapped_internal_error csvStubDelegate csvStubDelegate
    csvWiredImpls [("csv", .str "a,b\n1,2"), ("lonfield", .str "b")] rfl rfl
  exact ⟨h.1, h.2.2⟩

/-- C10: for `wkt_to_geojson`, `csv_to_geojson` and `kml_to_geojson`, a
required text argument that is supplied but empty fails the `!arg`
truthiness check exactly like an absent one: the operation rejects with the
same missing-required-parameter `InvalidParams` error, and no delegate
parser is invoked (the result is independent of the delegates). -/
theorem empty_string_text_arguments_rejected
    (p p' : JValue → Except String JValue) (sf sf' : JValue → String)
    (dc dc' : JValue → JValue → JValue → JValue → Except String String)
    (dk dk' : JValue → Except String String)
    (a1 b1 a2 b2 a3 b3 : ArgBag)
    (h1 : getArg a1 "wkt" = some (.str "")) (g1 : getArg b1 "wkt" = none)
    (h2 : getArg a2 "csv" = some (.str "")) (g2 : getArg b2 "csv" = none)
    (h3 : getArg a3 "kml" = some (.str "")) (g3 : getArg b3 "kml" = none) :
    (wktToGeoJSON p sf a1 = .error ⟨.InvalidParams, "Missing required parameter: wkt"⟩ ∧
     wktToGeoJSON p sf a1 = wktToGeoJSON p' sf' b1) ∧
    (csvToGeoJSON dc a2 =
       .error ⟨.InvalidParams, "Missing required parameters: csv, latfield, lonfield"⟩ ∧
     csvToGeoJSON dc a2 = csvToGeoJSON dc' b2) ∧
    (kmlToGeoJSON dk a3 = .error ⟨.InvalidParams, "Missing required parameter: kml"⟩ ∧
     kmlToGeoJSON dk a3 = kmlToGeoJSON dk' b3) := by
  have w1 : wktToGeoJSON p sf a1 = .error ⟨.InvalidParams, "Missing required parameter: wkt"⟩ := by
    simp [wktToGeoJSON, h1, truthyO, jsTruthy]
  have w2 : wktToGeoJSON p' sf' b1 =
      .error ⟨.InvalidParams, "Missing required parameter: wkt"⟩ := by
    simp [wktToGeoJSON, g1, truthyO]
  have c1 : csvToGeoJSON dc a2 =
      .error ⟨.InvalidParams, "Missing required parameters: csv, latfield, lonfield"⟩ := by
    simp [csvToGeoJSON, h2, truthyO, jsTruthy]
  have c2 : csvToGeoJSON dc' b2 =
      .error ⟨.InvalidParams, "Missing required parameters: csv, latfield, lonfield"⟩ := by
    simp [csvToGeoJSON, g2, truthyO]
  have k1 : kmlToGeoJSON dk a3 = .error ⟨.InvalidParams, "Missing required parameter: kml"⟩ := by
    simp [kmlToGeoJSON, h3, truthyO, jsTruthy]
  have k2 : kmlToGeoJSON dk' b3 = .error ⟨.InvalidParams, "Missing required parameter: kml"⟩ := by
    simp [kmlToGeoJSON, g3, truthyO]
  exact ⟨⟨w1, w1.trans w2.symm⟩, ⟨c1, c1.trans c2.symm⟩, ⟨k1, k1.trans k2.symm⟩⟩

/-- Witness for C10 at concrete bags whose text argument is the empty
string resp. absent. -/
theorem empty_string_text_arguments_rejected_witness :
    (wktToGeoJSON (fun _ => .ok .null) (fun _ => "") [("wkt", .str "")] =
       .error ⟨.InvalidParams, "Missing required parameter: wkt"⟩) ∧
    (csvToGeoJSON csvStubDelegate
       [("csv", .str ""), ("latfield", .str "lat"), ("lonfield", .str "lon")] =
       .error ⟨.InvalidParams, "Missing required parameters: csv, latfield, lonfield"⟩) ∧
    (kmlToGeoJSON (fun _ => .ok "") [("kml", .str "")] =
       .error ⟨.InvalidParams, "Missing required parameter: kml"⟩) := by
  have h := empty_string_text_arguments_rejected
    (fun _ => .ok .null) (fun _ => .ok .null) (fun _ => "") (fun _ => "")
    csvStubDelegate csvStubDelegate (fun _ => .ok "") (fun _ => .ok "")
    [("wkt", .str "")] [] [("csv", .str ""), ("latfield", .str "lat"), ("lonfield", .str "lon")]
    [] [("kml", .str "")] []
    rfl rfl rfl rfl rfl rfl
  exact ⟨h.1.1, h.2.1.1, h.2.2.1⟩

/-- C7: `topojson_to_geojson` with `objectName` omitted and a non-empty
`objects` mapping (whose first entry is a real object: non-empty key,
truthy value) converts the object stored under the first key — the delegate
is applied to exactly that value; with `objects` absent, or with a resolved
`objectName` that misses the mapping, the operation fails with an error
instead of returning a result. -/
theorem topojson_object_resolution
    (d : Topology → JValue → String) (k : String) (v : JValue) (rest : List (String × JValue))
    (hk : k ≠ "") (hv : jsTruthy v = true) :
    topojsonToGeoJSON d (some ⟨some ((k, v) :: rest)⟩) none =
      .ok (formatToolResponse (d ⟨some ((k, v) :: rest)⟩ v)) ∧
    (∀ nm, topojsonToGeoJSON d (some ⟨none⟩) nm =
      .error ⟨.InternalError,
        "TopoJSON to GeoJSON conversion failed: No valid object found in TopoJSON"⟩) ∧
    (∀ nm objs, nm ≠ "" → List.lookup nm objs = none →
      topojsonToGeoJSON d (some ⟨some objs⟩) (some nm) =
        .error ⟨.InternalError,
          "TopoJSON to GeoJSON conversion failed: No valid object found in TopoJSON"⟩) := by
  refine ⟨?_, ?_, ?_⟩
  · simp [topojsonToGeoJSON, jsStrTruthy, hk, hv]
  · intro nm
    cases hnm : jsStrTruthy nm <;> simp [topojsonToGeoJSON, hnm]
  · intro nm objs hnm hlook
    simp [topojsonToGeoJSON, jsStrTruthy, hnm, hlook]

/-- Witness for C7 at a one-entry `objects` mapping under key `data`. -/
theorem topojson_object_resolution_witness :
    topojsonToGeoJSON (fun _ _ => "GJ") (some ⟨some [("data", .obj [])]⟩) none =
      .ok (formatToolResponse "GJ") ∧
    topojsonToGeoJSON (fun _ _ => "GJ") (some ⟨none⟩) (some "data") =
      .error ⟨.InternalError,
        "TopoJSON to GeoJSON conversion failed: No valid object found in TopoJSON"⟩ ∧
    topojsonToGeoJSON (fun _ _ => "GJ") (some ⟨some [("data", .obj [])]⟩) (some "missing") =
      .error ⟨.InternalError,
        "TopoJSON to GeoJSON conversion failed: No valid object found in TopoJSON"⟩ := by
  have h := topojson_object_resolution (fun _ _ => "GJ") "data" (.obj []) []
    (by decide) rfl
  exact ⟨h.1, h.2.1 (some "data"), h.2.2 "missing" [("data", .obj [])] (by decide) rfl⟩

/-- C8: the emitted CSV is identical whatever `includeAllProperties` is
(true, false, absent, or any other value): the embedded operation never
consults the flag, and a call with the flag set to `false` still includes
every property column. -/
theorem include_all_properties_never_consulted
    (geojson : Option GeoJSONDoc) (b b' : Option JValue) :
    geojsonToCSV geojson b = geojsonToCSV geojson b' ∧
    geojsonToCSV (some ⟨some [⟨some (.point [10, 20]), some [("city", JValue.str "X")]⟩]⟩)
        (some (.bool false)) =
      .ok (formatToolResponse "latitude,longitude,city\n20,10,\"X\"") :=
  ⟨rfl, rfl⟩

/-- The centroid loop's sum over column `i` is the exact sum of the
`getD`-projected coordinates whenever every vertex is long enough (no
`undefined` is ever added). -/
theorem foldl_jsAdd_of_lt (i : ℕ) (ring : List (List ℚ)) (h : ∀ p ∈ ring, i < p.length)
    (a : ℚ) :
    ring.foldl (fun acc p => jsAdd acc (p.get? i)) (some a)
      = some (a + (ring.map (fun p => p.getD i 0)).sum) := by
  induction ring generalizing a with
  | nil => simp
  | cons p ps ih =>
    have hi : i < p.length := h p (List.mem_cons_self p ps)
    have hp : p.get? i = some (p.getD i 0) := by
      rw [List.getD_eq_getElem?_getD, ← List.get?_eq_getElem?]
      cases hg : p.get? i with
      | none => exact absurd (List.get?_eq_none.mp hg) (by omega)
      | some x => rfl
    rw [List.foldl_cons, hp]
    show List.foldl _ (jsAdd (some a) (some (p.getD i 0))) ps = _
    rw [show jsAdd (some a) (some (p.getD i 0)) = some (a + p.getD i 0) from rfl,
      ih (fun q hq => h q (List.mem_cons_of_mem _ hq))]
    simp [add_assoc]

/-- `getCentroid` on a non-empty ring of well-formed vertices is the exact
pair of coordinate means. -/
theorem getCentroid_eq (ring : List (List ℚ)) (hne : ring ≠ [])
    (hwf : ∀ p ∈ ring, 2 ≤ p.length) :
    getCentroid ring =
      (some ((ring.map (fun p => p.getD 0 0)).sum / (ring.length : ℚ)),
       some ((ring.map (fun p => p.getD 1 0)).sum / (ring.length : ℚ))) := by
  have h0 : ∀ p ∈ ring, 0 < p.length := fun p hp => lt_of_lt_of_le (by norm_num) (hwf p hp)
  have h1 : ∀ p ∈ ring, 1 < p.length := fun p hp => lt_of_lt_of_le (by norm_num) (hwf p hp)
  have hn : ring.length ≠ 0 := fun hz => hne (List.length_eq_zero.mp hz)
  simp only [getCentroid]
  rw [foldl_jsAdd_of_lt 0 ring h0 0, foldl_jsAdd_of_lt 1 ring h1 0]
  simp [hn]

/-- C4: for a `Polygon` whose first ring is non-empty (vertices being
coordinate pairs), the emitted `(lon, lat)` is the unweighted arithmetic
mean of the first ring's vertices — sum of x over n, sum of y over n — and
a `MultiPolygon` takes the same mean over the first ring of its first
polygon. -/
theorem polygon_centroid_is_vertex_mean (ring : List (List ℚ))
    (rs : List (List (List ℚ))) (ps : List (List (List (List ℚ))))
    (hne : ring ≠ []) (hwf : ∀ p ∈ ring, 2 ≤ p.length) :
    featureLonLat (some (.polygon (ring :: rs))) =
      .ok (Cell.num ((ring.map (fun p => p.getD 0 0)).sum / (ring.length : ℚ)),
           Cell.num ((ring.map (fun p => p.getD 1 0)).sum / (ring.length : ℚ))) ∧
    featureLonLat (some (.multiPolygon ((ring :: rs) :: ps))) =
      .ok (Cell.num ((ring.map (fun p => p.getD 0 0)).sum / (ring.length : ℚ)),
           Cell.num ((ring.map (fun p => p.getD 1 0)).sum / (ring.length : ℚ))) := by
  have hc := getCentroid_eq ring hne hwf
  constructor <;> simp [featureLonLat, hc, Cell.ofNum]

/-- Witness for C4 at the ring `[[0,0],[0,2],[2,2],[2,0]]`, whose centroid
is `(1, 1)`. -/
theorem polygon_centroid_is_vertex_mean_witness :
    featureLonLat (some (.polygon [[[0, 0], [0, 2], [2, 2], [2, 0]]])) =
      .ok (.num 1, .num 1) ∧
    featureLonLat (some (.multiPolygon [[[[0, 0], [0, 2], [2, 2], [2, 0]]]])) =
      .ok (.num 1, .num 1) := by
  have h := polygon_centroid_is_vertex_mean [[0, 0], [0, 2], [2, 2], [2, 0]] [] []
    (by simp) (by decide)
  constructor
  · rw [h.1]; norm_num [List.getD]
  · rw [h.2]; norm_num [List.getD]

/-- The per-row correspondence claimed for Point-only collections: the
feature is a Point and the row starts with the rendered second and first
coordinates (latitude then longitude). -/
def PointRowMatch (f : Feature) (row : List String) : Prop :=
  ∃ cs x y, f.geometry = some (Geometry.point cs) ∧ cs.get? 0 = some x ∧
    cs.get? 1 = some y ∧ row.get? 0 = some (jsNumRepr y) ∧ row.get? 1 = some (jsNumRepr x)

/-- The row loop on a list of well-formed Point features succeeds and
produces exactly one matching row per feature. -/
theorem mapRows_point (keys : List String) (fs : List Feature)
    (h : ∀ f ∈ fs, ∃ cs, f.geometry = some (Geometry.point cs) ∧ 2 ≤ cs.length) :
    ∃ dataRows, mapRows keys fs = .ok dataRows ∧ List.Forall₂ PointRowMatch fs dataRows := by
  induction fs with
  | nil => exact ⟨[], rfl, List.Forall₂.nil⟩
  | cons f fs ih =>
    obtain ⟨cs, hg, hlen⟩ := h f (List.mem_cons_self f fs)
    obtain ⟨rows, hrows, hfa⟩ := ih (fun g hgm => h g (List.mem_cons_of_mem _ hgm))
    obtain ⟨x, hx⟩ : ∃ x, cs.get? 0 = some x := ⟨cs.get ⟨0, by omega⟩, List.get?_eq_get _⟩
    obtain ⟨y, hy⟩ : ∃ y, cs.get? 1 = some y := ⟨cs.get ⟨1, by omega⟩, List.get?_eq_get _⟩
    have hx' : cs[0]? = some x := by rw [← List.get?_eq_getElem?]; exact hx
    have hy' : cs[1]? = some y := by rw [← List.get?_eq_getElem?]; exact hy
    refine ⟨(jsNumRepr y :: jsNumRepr x :: keys.map (propCell f.properties)) :: rows, ?_, ?_⟩
    · have hrc : rowCells keys f =
          .ok (jsNumRepr y :: jsNumRepr x :: keys.map (propCell f.properties)) := by
        unfold rowCells
        rw [hg]
        simp [featureLonLat, hx, hy, hx', hy', Cell.ofIdx, Cell.render]
      unfold mapRows
      rw [hrc, hrows]
    · exact List.Forall₂.cons ⟨cs, x, y, hg, hx, hy, rfl, rfl⟩ hfa

/-- C3: for a FeatureCollection containing only Point features (with
coordinate pairs), the flattening emits exactly one data row per feature
(`List.Forall₂` forces equal lengths) whose first cell renders the point's
second coordinate (latitude) and whose second cell renders its first
coordinate (longitude); and the concrete example document yields exactly
the claimed CSV text. -/
theorem point_features_row_correspondence :
    (∀ fs : List Feature,
      (∀ f ∈ fs, ∃ cs, f.geometry = some (Geometry.point cs) ∧ 2 ≤ cs.length) →
      ∃ dataRows,
        geojsonRows fs = .ok (("latitude" :: "longitude" :: collectKeys fs) :: dataRows) ∧
        List.Forall₂ PointRowMatch fs dataRows) ∧
    geojsonToCSVtext [⟨some (.point [10, 20]), some [("city", JValue.str "X")]⟩] =
      .ok "latitude,longitude,city\n20,10,\"X\"" := by
  constructor
  · intro fs h
    obtain ⟨rows, hrows, hfa⟩ := mapRows_point (collectKeys fs) fs h
    refine ⟨rows, ?_, hfa⟩
    unfold geojsonRows
    rw [hrows]
  · rfl

/-- Witness for C3 at the one-feature example document. -/
theorem point_features_row_correspondence_witness :
    ∃ dataRows,
      geojsonRows [⟨some (.point [10, 20]), some [("city", JValue.str "X")]⟩] =
        .ok (("latitude" :: "longitude" ::
          collectKeys [⟨some (.point [10, 20]), some [("city", JValue.str "X")]⟩]) :: dataRows) ∧
      List.Forall₂ PointRowMatch
        [⟨some (.point [10, 20]), some [("city", JValue.str "X")]⟩] dataRows :=
  point_features_row_correspondence.1 [⟨some (.point [10, 20]), some [("city", JValue.str "X")]⟩]
    (by
      intro f hf
      simp only [List.mem_singleton] at hf
      subst hf
      exact ⟨[10, 20], rfl, by norm_num⟩)

/-- Membership after one `Set.add` step. -/
theorem mem_addKey (acc : List String) (a k : String) : k ∈ addKey acc a ↔ k ∈ acc ∨ k = a := by
  unfold addKey
  by_cases ha : a ∈ acc
  · rw [if_pos ha]
    constructor
    · exact Or.inl
    · rintro (hk | rfl)
      · exact hk
      · exact ha
  · rw [if_neg ha]
    simp [List.mem_append]

/-- Membership after folding `Set.add` over a key list. -/
theorem mem_foldl_addKey (ks : List String) (acc : List String) (k : String) :
    k ∈ ks.foldl addKey acc ↔ k ∈ acc ∨ k ∈ ks := by
  induction ks generalizing acc with
  | nil => simp
  | cons a as ih =>
    rw [List.foldl_cons, ih, mem_addKey, List.mem_cons]
    tauto

/-- `collectKeys` contains exactly the union of the features' property
keys. -/
theorem mem_collectKeys (fs : List Feature) (k : String) :
    k ∈ collectKeys fs ↔ ∃ f ∈ fs, k ∈ propKeys f := by
  suffices h : ∀ acc, (k ∈ fs.foldl (fun acc f => (propKeys f).foldl addKey acc) acc ↔
      k ∈ acc ∨ ∃ f ∈ fs, k ∈ propKeys f) by
    simpa [collectKeys] using h []
  induction fs with
  | nil => simp
  | cons f fs ih =>
    intro acc
    rw [List.foldl_cons, ih, mem_foldl_addKey]
    simp only [List.mem_cons]
    constructor
    · rintro (⟨hk | hk⟩ | ⟨g, hg, hk⟩)
      · exact Or.inl hk
      · exact Or.inr ⟨f, Or.inl rfl, hk⟩
      · exact Or.inr ⟨g, Or.inr hg, hk⟩
    · rintro (hk | ⟨g, hg | hg, hk⟩)
      · exact Or.inl (Or.inl hk)
      · subst hg; exact Or.inl (Or.inr hk)
      · exact Or.inr ⟨g, hg, hk⟩

/-- One `Set.add` step preserves distinctness. -/
theorem nodup_addKey (acc : List String) (a : String) (h : acc.Nodup) : (addKey acc a).Nodup := by
  unfold addKey
  by_cases ha : a ∈ acc
  · rw [if_pos ha]; exact h
  · rw [if_neg ha]
    rw [List.nodup_append]
    exact ⟨h, List.nodup_singleton a, by simpa [List.disjoint_singleton] using ha⟩

/-- Folding `Set.add` preserves distinctness. -/
theorem nodup_foldl_addKey (ks : List String) (acc : List String) (h : acc.Nodup) :
    (ks.foldl addKey acc).Nodup := by
  induction ks generalizing acc with
  | nil => exact h
  | cons a as ih => exact ih (addKey acc a) (nodup_addKey acc a h)

/-- `collectKeys` is duplicate-free: its length is the cardinality of the
union of property keys. -/
theorem collectKeys_nodup (fs : List Feature) : (collectKeys fs).Nodup := by
  suffices h : ∀ acc : List String, acc.Nodup →
      (fs.foldl (fun acc f => (propKeys f).foldl addKey acc) acc).Nodup by
    exact h [] List.nodup_nil
  induction fs with
  | nil => exact fun acc h => h
  | cons f fs ih =>
    intro acc hacc
    exact ih ((propKeys f).foldl addKey acc) (nodup_foldl_addKey _ acc hacc)

/-- Every successfully built data row has a latitude cell, a longitude
cell, and one cell per collected key. -/
theorem rowCells_length (keys : List String) (f : Feature) (r : List String)
    (h : rowCells keys f = .ok r) : r.length = 2 + keys.length := by
  unfold rowCells at h
  cases hfl : featureLonLat f.geometry with
  | error e => rw [hfl] at h; exact absurd h (by simp)
  | ok p =>
    obtain ⟨lon, lat⟩ := p
    rw [hfl] at h
    injection h with h
    rw [← h]
    simp [Nat.add_comm]
    omega

/-- Every row produced by the row loop has the same cell count. -/
theorem mapRows_length_all (keys : List String) (fs : List Feature) (rows : List (List String))
    (h : mapRows keys fs = .ok rows) : ∀ r ∈ rows, r.length = 2 + keys.length := by
  induction fs generalizing rows with
  | nil =>
    unfold mapRows at h
    injection h with h
    rw [← h]
    intro r hr
    exact absurd hr (List.not_mem_nil r)
  | cons f fs ih =>
    unfold mapRows at h
    cases hrc : rowCells keys f with
    | error e => rw [hrc] at h; exact absurd h (by simp)
    | ok r0 =>
      rw [hrc] at h
      cases hm : mapRows keys fs with
      | error e => rw [hm] at h; exact absurd h (by simp)
      | ok rs =>
        rw [hm] at h
        injection h with h
        rw [← h]
        intro r hr
        rcases List.mem_cons.mp hr with rfl | hr
        · exact rowCells_length keys f r hrc
        · exact ih rs hm r hr

/-- C5: on every conversion that produces output, the first row is the
header `latitude, longitude` followed by the union of all features'
property keys in first-seen order (computed once from the full feature set,
independently of any row); the key list is duplicate-free, the header has
`2 + |union|` cells, and every emitted row — header and data rows alike —
has exactly that many cells. -/
theorem header_and_row_shape (fs : List Feature) (rows : List (List String))
    (h : geojsonRows fs = .ok rows) :
    rows.head? = some ("latitude" :: "longitude" :: collectKeys fs) ∧
    (∀ k, k ∈ collectKeys fs ↔ ∃ f ∈ fs, k ∈ propKeys f) ∧
    (collectKeys fs).Nodup ∧
    ("latitude" :: "longitude" :: collectKeys fs).length = 2 + (collectKeys fs).length ∧
    (∀ r ∈ rows, r.length = 2 + (collectKeys fs).length) := by
  unfold geojsonRows at h
  cases hm : mapRows (collectKeys fs) fs with
  | error e => rw [hm] at h; exact absurd h (by simp)
  | ok dataRows =>
    rw [hm] at h
    injection h with h
    subst h
    refine ⟨rfl, mem_collectKeys fs, collectKeys_nodup fs, by simp; omega, ?_⟩
    intro r hr
    rcases List.mem_cons.mp hr with rfl | hr
    · simp
      omega
    · exact mapRows_length_all _ _ _ hm r hr

/-- Witness for C5 on a two-feature document with overlapping property
keys: the header is computed from both features, and all three rows have
four cells. -/
theorem header_and_row_shape_witness :
    geojsonRows [⟨some (.point [1, 2]), some [("a", JValue.num 1)]⟩,
        ⟨some (.point [3, 4]), some [("b", JValue.str "x"), ("a", JValue.null)]⟩] =
      .ok [["latitude", "longitude", "a", "b"], ["2", "1", "1", "\"\""],
        ["4", "3", "", "\"x\""]] ∧
    ∀ r ∈ [["latitude", "longitude", "a", "b"], ["2", "1", "1", "\"\""],
        ["4", "3", "", "\"x\""]], r.length = 2 +
      (collectKeys [⟨some (.point [1, 2]), some [("a", JValue.num 1)]⟩,
        ⟨some (.point [3, 4]), some [("b", JValue.str "x"), ("a", JValue.null)]⟩]).length :=
  ⟨rfl,
   (header_and_row_shape
     [⟨some (.point [1, 2]), some [("a", JValue.num 1)]⟩,
      ⟨some (.point [3, 4]), some [("b", JValue.str "x"), ("a", JValue.null)]⟩]
     [["latitude", "longitude", "a", "b"], ["2", "1", "1", "\"\""], ["4", "3", "", "\"x\""]]
     rfl).2.2.2.2⟩

/-- Whether a geometry is one of the two sub-types the GeometryCollection
branch special-cases. -/
def isPointOrPolygon : Geometry → Bool
  | .point _ => true
  | .polygon _ => true
  | _ => false

/-- C6 counterexample: a feature with an absent geometry makes the whole
conversion fail (`feature.geometry.type` throws, the `catch` returns
`InternalError`), contradicting the claim that absent geometry yields empty
lat/lon cells without failing. -/
theorem absent_geometry_fails_conversion :
    geojsonToCSV (some ⟨some [⟨none, some [("name", JValue.str "a")]⟩]⟩) none =
      .error ⟨.InternalError, "GeoJSON to CSV conversion failed"⟩ := rfl

/-- C6 (amended): a GeometryCollection feature takes its `(lon, lat)` from
the first sub-geometry exactly when that sub-geometry is a Point (its
coordinate) or a Polygon with a first ring (that ring's centroid); any
other first sub-geometry — and an empty collection, and a feature whose
geometry object has an unrecognized type — yields empty strings for both
cells without failing the conversion; but a feature with an absent (null or
missing) geometry throws, failing the whole conversion. -/
theorem geometry_collection_and_fallback :
    (∀ cs gs, featureLonLat (some (.collection (.point cs :: gs))) =
      .ok (Cell.ofIdx (cs.get? 0), Cell.ofIdx (cs.get? 1))) ∧
    (∀ ring rs gs, featureLonLat (some (.collection (.polygon (ring :: rs) :: gs))) =
      .ok (Cell.ofNum (getCentroid ring).1, Cell.ofNum (getCentroid ring).2)) ∧
    (∀ g gs, isPointOrPolygon g = false →
      featureLonLat (some (.collection (g :: gs))) = .ok (.emptyS, .emptyS)) ∧
    featureLonLat (some (.collection [])) = .ok (.emptyS, .emptyS) ∧
    featureLonLat (some .other) = .ok (.emptyS, .emptyS) ∧
    featureLonLat none = .error () ∧
    (∀ fs : List Feature, (∀ f ∈ fs, ∃ pair, featureLonLat f.geometry = .ok pair) →
      ∃ rows, geojsonRows fs = .ok rows) := by
  refine ⟨fun cs gs => rfl, fun ring rs gs => rfl, ?_, rfl, rfl, rfl, ?_⟩
  · intro g gs hg
    cases g with
    | point cs => exact absurd hg (by simp [isPointOrPolygon])
    | polygon rings => exact absurd hg (by simp [isPointOrPolygon])
    | lineString cs => rfl
    | multiPoint cs => rfl
    | multiLineString ls => rfl
    | multiPolygon ps => rfl
    | collection gs2 => rfl
    | other => rfl
  · intro fs h
    suffices hm : ∃ dataRows, mapRows (collectKeys fs) fs = .ok dataRows by
      obtain ⟨dataRows, hm⟩ := hm
      refine ⟨("latitude" :: "longitude" :: collectKeys fs) :: dataRows, ?_⟩
      unfold geojsonRows
      rw [hm]
    generalize collectKeys fs = keys
    induction fs with
    | nil => exact ⟨[], rfl⟩
    | cons f fs ih =>
      obtain ⟨pair, hpair⟩ := h f (List.mem_cons_self f fs)
      obtain ⟨rs, hrs⟩ := ih (fun g hg => h g (List.mem_cons_of_mem _ hg))
      obtain ⟨lon, lat⟩ := pair
      refine ⟨(Cell.render lat :: Cell.render lon :: keys.map (propCell f.properties)) :: rs, ?_⟩
      unfold mapRows
      rw [show rowCells keys f =
        .ok (Cell.render lat :: Cell.render lon :: keys.map (propCell f.properties)) by
          unfold rowCells
          rw [hpair], hrs]

/-- Witness for C6 at a collection whose first sub-geometry is a
LineString (neither Point nor Polygon) and at a one-feature document with
an unrecognized geometry type. -/
theorem geometry_collection_and_fallback_witness :
    featureLonLat (some (.collection [Geometry.lineString [[5, 6]]])) =
      .ok (.emptyS, .emptyS) ∧
    ∃ rows, geojsonRows [⟨some Geometry.other, none⟩] = .ok rows := by
  refine ⟨geometry_collection_and_fallback.2.2.1 (Geometry.lineString [[5, 6]]) [] rfl, ?_⟩
  exact geometry_collection_and_fallback.2.2.2.2.2.2 [⟨some Geometry.other, none⟩]
    (by
      intro f hf
      simp only [List.mem_singleton] at hf
      subst hf
      exact ⟨(.emptyS, .emptyS), rfl⟩)

/-- C9 counterexample: a property key present in the header but missing on
a feature is rendered as the two-character quoted empty string `""` (the
code substitutes the string `''` and then quotes it), not as an empty
cell. -/
theorem missing_property_renders_quoted_empty :
    rowCells ["city"] ⟨some (.point [1, 2]), some []⟩ = .ok ["2", "1", "\"\""] ∧
    propCell (some []) "city" ≠ "" := ⟨rfl, by decide⟩

/-- C9 (amended): in a data row, a property key missing on the feature is
rendered as the quoted empty string `""` (the empty-string default run
through the string rule); a string value is rendered surrounded by double
quotes with internal double quotes doubled (`quoteJs`); a `null` value is
rendered as a truly empty cell (`Array.join` renders `null` as nothing);
and any other non-string value is rendered via its default textual
representation, unquoted. -/
theorem property_cell_rendering (props : Option (List (String × JValue))) (k : String) :
    (propLookup props k = none → propCell props k = quoteJs "") ∧
    (∀ s, propLookup props k = some (.str s) → propCell props k = quoteJs s) ∧
    (propLookup props k = some .null → propCell props k = "") ∧
    (∀ v, propLookup props k = some v → (∀ s, v ≠ JValue.str s) → v ≠ JValue.null →
      propCell props k = jsToString v) ∧
    quoteJs "" = "\"\"" := by
  refine ⟨?_, ?_, ?_, ?_, by decide⟩
  · intro h; simp [propCell, h]
  · intro s h; simp [propCell, h]
  · intro h; simp [propCell, h]
  · intro v h hs hn
    cases v with
    | null => exact absurd rfl hn
    | str s => exact absurd rfl (hs s)
    | bool b => simp [propCell, h]
    | num q => simp [propCell, h]
    | arr xs => simp [propCell, h]
    | obj fields => simp [propCell, h]

/-- Witness for C9: a string value with an internal quote is doubled, a
number renders unquoted, a `null` renders as an empty cell, and a missing
key renders as `""`. -/
theorem property_cell_rendering_witness :
    propCell (some [("a", .str "x\"y")]) "a" = "\"x\"\"y\"" ∧
    propCell (some [("n", .num 3)]) "n" = "3" ∧
    propCell (some [("z", .null)]) "z" = "" ∧
    propCell (some []) "missing" = "\"\"" := by
  have h1 := (property_cell_rendering (some [("a", .str "x\"y")]) "a").2.1 "x\"y" rfl
  have h2 := (property_cell_rendering (some [("n", .num 3)]) "n").2.2.2.1 (.num 3) rfl
    (fun s hsv => nomatch hsv) (fun hnv => nomatch hnv)
  have h3 := (property_cell_rendering (some [("z", .null)]) "z").2.2.1 rfl
  have h4 := (property_cell_rendering (some []) "missing").1 rfl
  exact ⟨by rw [h1]; decide, by rw [h2]; decide, h3, by rw [h4]; decide⟩

end GisMcp
